import Mathlib

set_option maxRecDepth 4000

namespace ToonFormatSkill

mutual

/-- A JSON-compatible tree value as manipulated by the TypeScript source.
JavaScript numbers are modelled as rationals plus a distinguished NaN value
(needed for the truthiness check in preProcess); objects are ordered field
lists with string keys, arrays are ordered value lists. -/
inductive Value where
  | vnull : Value
  | vbool : Bool → Value
  | vnum : ℚ → Value
  | vnan : Value
  | vstr : String → Value
  | varr : ValueList → Value
  | vobj : Fields → Value

inductive ValueList where
  | nil : ValueList
  | cons : Value → ValueList → ValueList

inductive Fields where
  | fnil : Fields
  | fcons : String → Value → Fields → Fields

end

/-- Length of an array value list, mirroring the JavaScript arr.length. -/
def ValueList.length : ValueList → ℕ
  | .nil => 0
  | .cons _ vs => vs.length + 1

/-- arr.every over a value list, mirroring Array.prototype.every. -/
def ValueList.all (p : Value → Bool) : ValueList → Bool
  | .nil => true
  | .cons v vs => p v && ValueList.all p vs

/-- Conversion to a Lean list, used for stating properties. -/
def ValueList.toList : ValueList → List Value
  | .nil => []
  | .cons v vs => v :: vs.toList

/-- The key list of a field list, mirroring Object.keys on an object value. -/
def fieldKeys : Fields → List String
  | .fnil => []
  | .fcons k _ fs => k :: fieldKeys fs

/-- Object.keys lifted to arbitrary values; on non-objects it yields no keys
(in the source such calls are unreachable because of preceding guards). -/
def objectKeys : Value → List String
  | .vobj fs => fieldKeys fs
  | _ => []

/-- The guard item !== null, typeof item === an object, !Array.isArray(item):
only a plain object mapping satisfies all three. -/
def isPlainObject : Value → Bool
  | .vobj _ => true
  | _ => false

/-- isUniformObjectArray from the source: a non-empty array whose every element
is a non-null, non-array mapping, and whose every element has a key list of the
same size as the first element key set with every key contained in it. -/
def isUniformObjectArray (arr : ValueList) : Bool :=
  match arr with
  | .nil => false
  | .cons v₀ _ =>
    ValueList.all isPlainObject arr &&
    (let firstKeys := (objectKeys v₀).dedup
     ValueList.all (fun item =>
       (objectKeys item).length == firstKeys.length &&
       (objectKeys item).all (fun k => decide (k ∈ firstKeys))) arr)

/-- The nested forEach loops of calculateUniformity: for every element, count
the reference fields present in that element. -/
def presentCount : ValueList → List String → ℕ
  | .nil, _ => 0
  | .cons v vs, ref =>
    ref.countP (fun k => decide (k ∈ objectKeys v)) + presentCount vs ref

/-- calculateUniformity from the source: presentFields / (referenceFields.length
* arr.length), where referenceFields is the key list of the first element. -/
def calculateUniformity (arr : ValueList) : ℚ :=
  match arr with
  | .nil => 1
  | .cons v₀ _ =>
    let referenceFields := objectKeys v₀
    let totalFields := referenceFields.length * arr.length
    (presentCount arr referenceFields : ℚ) / (totalFields : ℚ)

/-- The mutable counters of analyzeDataStructure, threaded functionally. -/
structure TravAcc where
  totalArrays : ℕ
  tabularArrays : ℕ
  maxDepth : ℕ
  uniformitySum : ℚ
  uniformityCount : ℕ

/-- maxDepth = Math.max(maxDepth, depth), performed on entry to traverse. -/
def visit (acc : TravAcc) (depth : ℕ) : TravAcc :=
  { acc with maxDepth := max acc.maxDepth depth }

/-- The array branch of traverse: count the array and, when non-empty and
uniform, count it as tabular and accumulate its uniformity. -/
def arrayUpdate (acc : TravAcc) (xs : ValueList) : TravAcc :=
  let acc1 := { acc with totalArrays := acc.totalArrays + 1 }
  if decide (0 < xs.length) && isUniformObjectArray xs then
    { acc1 with
        tabularArrays := acc1.tabularArrays + 1,
        uniformitySum := acc1.uniformitySum + calculateUniformity xs,
        uniformityCount := acc1.uniformityCount + 1 }
  else acc1

mutual

/-- The recursive traverse of analyzeDataStructure: arrays recurse into every
element at depth + 1, objects recurse into every field value at depth + 1,
scalars only update the maximum depth. -/
def traverse (acc : TravAcc) : Value → ℕ → TravAcc
  | .varr xs, depth => traverseList (arrayUpdate (visit acc depth) xs) xs (depth + 1)
  | .vobj fs, depth => traverseFields (visit acc depth) fs (depth + 1)
  | _, depth => visit acc depth

def traverseList (acc : TravAcc) : ValueList → ℕ → TravAcc
  | .nil, _ => acc
  | .cons v vs, depth => traverseList (traverse acc v depth) vs depth

def traverseFields (acc : TravAcc) : Fields → ℕ → TravAcc
  | .fnil, _ => acc
  | .fcons _ v fs, depth => traverseFields (traverse acc v depth) fs depth

end

/-- The statistics record returned by analyzeDataStructure. -/
structure StructStats where
  percentTabular : ℚ
  nestedDepth : ℕ
  uniformityScore : ℚ

/-- analyzeDataStructure from the source: run the traversal from depth 0 and
assemble percentTabular, nestedDepth and uniformityScore. -/
def analyzeDataStructure (data : Value) : StructStats :=
  let r := traverse ⟨0, 0, 0, 0, 0⟩ data 0
  ⟨if 0 < r.totalArrays then ((r.tabularArrays : ℚ) / (r.totalArrays : ℚ)) * 100 else 0,
   r.maxDepth,
   if 0 < r.uniformityCount then r.uniformitySum / (r.uniformityCount : ℚ) else 1⟩

/-- The eligibility thresholds of the configuration. -/
structure EligibilityCfg where
  minTabularPercent : ℚ
  maxNestedDepth : ℕ
  minUniformityScore : ℚ

/-- TOONConfig from the source, a record holding the eligibility thresholds. -/
structure TOONConfig where
  eligibility : EligibilityCfg

/-- DEFAULT_CONFIG from the source: 60 percent tabular, depth at most 4,
uniformity at least 0.8. -/
def DEFAULT_CONFIG : TOONConfig := ⟨⟨60, 4, 0.8⟩⟩

/-- The analysis record returned by analyzeEligibility. -/
structure EligibilityAnalysis where
  percentTabular : ℚ
  nestedDepth : ℕ
  uniformityScore : ℚ
  shouldUseTOON : Bool
  reason : String

/-- Stands for JavaScript number-to-string conversion inside template strings.
Exact floating point formatting is not modelled; no verified property reads
this text. -/
def jsNumToString (q : ℚ) : String := toString q

/-- Stands for Number.prototype.toFixed(2): round to two decimal places and
print with exactly two digits after the point. -/
def toFixedTwo (q : ℚ) : String :=
  let n : ℤ := round (q * 100)
  let sign := if n < 0 then "-" else ""
  let m := n.natAbs
  sign ++ toString (m / 100) ++ "." ++ (if m % 100 < 10 then "0" else "") ++ toString (m % 100)

/-- analyzeEligibility from the source: compute the structural statistics, test
the three thresholds of DEFAULT_CONFIG (the processor configuration is not
consulted anywhere), and assemble the human readable reason string. -/
def analyzeEligibility (data : Value) : EligibilityAnalysis :=
  let stats := analyzeDataStructure data
  let shouldUseTOON : Bool :=
    decide (stats.percentTabular ≥ DEFAULT_CONFIG.eligibility.minTabularPercent) &&
    decide (stats.nestedDepth ≤ DEFAULT_CONFIG.eligibility.maxNestedDepth) &&
    decide (stats.uniformityScore ≥ DEFAULT_CONFIG.eligibility.minUniformityScore)
  let reasons : List String :=
    (if stats.percentTabular ≥ 80 then ["highly tabular data (ideal for TOON)"]
     else if stats.percentTabular ≥ 60 then ["moderately tabular data (good fit for TOON)"]
     else ["only " ++ jsNumToString stats.percentTabular ++ "% tabular (TOON less beneficial)"]) ++
    (if stats.nestedDepth > DEFAULT_CONFIG.eligibility.maxNestedDepth then
       ["deep nesting (" ++ toString stats.nestedDepth ++ " levels)"]
     else []) ++
    (if stats.uniformityScore < DEFAULT_CONFIG.eligibility.minUniformityScore then
       ["low uniformity score (" ++ toFixedTwo stats.uniformityScore ++ ")"]
     else [])
  ⟨stats.percentTabular, stats.nestedDepth, stats.uniformityScore, shouldUseTOON,
   String.intercalate "; " reasons⟩

/-- The externally supplied functions: the TOON codec (encode always succeeds,
decode may fail) together with JSON.stringify and JSON.parse. The core treats
all four as black boxes; decode and parse return no value where the JavaScript
versions throw. -/
structure Ext where
  encode : Value → String
  decode : String → Option Value
  stringify : Value → String
  jsonParse : String → Option Value

/-- TokenMetrics from the source. -/
structure TokenMetrics where
  original : ℕ
  toon : ℕ
  savings : ℤ
  percentSaved : ℚ

/-- countTokens from the source: Math.ceil(text.length / 4). -/
def countTokens (text : String) : ℕ := ⌈(text.length : ℚ) / 4⌉₊

/-- calculateTokenSavings from the source: token counts of the JSON and TOON
serializations of the same data, their difference, and the percentage saved. -/
def calculateTokenSavings (E : Ext) (jsonData : Value) : TokenMetrics :=
  let jsonString := E.stringify jsonData
  let toonString := E.encode jsonData
  let original := countTokens jsonString
  let toon := countTokens toonString
  let savings : ℤ := (original : ℤ) - (toon : ℤ)
  let percentSaved : ℚ := if 0 < original then (((savings : ℚ)) / (original : ℚ)) * 100 else 0
  ⟨original, toon, savings, percentSaved⟩

/-- An LLM request: prompt strings plus optional structured data. -/
structure LLMRequest where
  systemPrompt : String
  userMessage : String
  data : Option Value

/-- An LLM response: raw text content. -/
structure LLMResponse where
  content : String

/-- After pre-processing the data slot holds either the original value or the
encoded TOON text. -/
inductive ProcData where
  | val : Value → ProcData
  | txt : String → ProcData

/-- The request shape returned by preProcess. -/
structure ProcessedRequest where
  systemPrompt : String
  userMessage : String
  data : Option ProcData
  toonProcessed : Bool
  metrics : Option TokenMetrics

/-- The pair returned by preProcess. -/
structure PreProcessResult where
  request : ProcessedRequest
  eligibility : EligibilityAnalysis

/-- JavaScript truthiness of the value in the data slot: null, NaN, false, 0
and the empty string are falsy; arrays and objects are always truthy. -/
def jsFalsyV : Value → Bool
  | .vnull => true
  | .vnan => true
  | .vbool b => !b
  | .vnum q => decide (q = 0)
  | .vstr s => s == ""
  | .varr _ => false
  | .vobj _ => false

/-- preProcessRequest from the source: short-circuit on a falsy data slot,
otherwise analyze eligibility, and only when eligible compute metrics and
replace data by its TOON encoding. -/
def preProcessRequest (E : Ext) (request : LLMRequest) : PreProcessResult :=
  match request.data with
  | none =>
    ⟨⟨request.systemPrompt, request.userMessage, none, false, none⟩,
     ⟨0, 0, 0, false, "no data"⟩⟩
  | some v =>
    if jsFalsyV v then
      ⟨⟨request.systemPrompt, request.userMessage, some (ProcData.val v), false, none⟩,
       ⟨0, 0, 0, false, "no data"⟩⟩
    else
      let eligibility := analyzeEligibility v
      if eligibility.shouldUseTOON = false then
        ⟨⟨request.systemPrompt, request.userMessage, some (ProcData.val v), false, none⟩,
         eligibility⟩
      else
        let metrics := calculateTokenSavings E v
        let toonData := E.encode v
        ⟨⟨request.systemPrompt, request.userMessage, some (ProcData.txt toonData), true,
          some metrics⟩, eligibility⟩

/-- The format tag of a post-processing result. -/
inductive RespFormat where
  | toon : RespFormat
  | json : RespFormat
  | none : RespFormat

/-- The record returned by postProcess. -/
structure PostProcessResult where
  parsed : Option Value
  success : Bool
  format : RespFormat
  error : Option String

/-- Character list scanner: the tail begins with one or more digits followed by
a closing bracket, after at least one digit has been seen. -/
def digitsClose : List Char → Bool
  | [] => false
  | c :: cs => c == ']' || (c.isDigit && digitsClose cs)

/-- The tail begins with one or more ASCII digits followed by a closing
bracket. -/
def bracketNumAt : List Char → Bool
  | [] => false
  | c :: cs => c.isDigit && digitsClose cs

/-- Some position of the text starts an opening bracket, one or more digits and
a closing bracket: the test of the regular expression for a bracketed length
marker. -/
def hasBracketNum : List Char → Bool
  | [] => false
  | c :: cs => (c == '[' && bracketNumAt cs) || hasBracketNum cs

/-- After at least one non-closing-brace character: a closing brace here or
after further non-closing-brace characters. -/
def fieldClose : List Char → Bool
  | [] => false
  | c :: cs => c == '}' || (c != '}' && fieldClose cs)

/-- The tail begins with one or more non-closing-brace characters followed by a
closing brace. -/
def fieldListAt : List Char → Bool
  | [] => false
  | c :: cs => c != '}' && fieldClose cs

/-- Some position of the text starts an opening brace, one or more
non-closing-brace characters and a closing brace: the test of the regular
expression for a brace delimited field list. -/
def hasFieldList : List Char → Bool
  | [] => false
  | c :: cs => (c == '{' && fieldListAt cs) || hasFieldList cs

/-- isTOONFormat from the source: both regular expressions must match somewhere
in the text. -/
def isTOONFormat (text : String) : Bool :=
  hasBracketNum text.data && hasFieldList text.data

/-- String.prototype.trim: drop leading and trailing whitespace. -/
def jsTrim (s : String) : String :=
  ⟨((s.data.dropWhile Char.isWhitespace).reverse.dropWhile Char.isWhitespace).reverse⟩

/-- postProcessResponse from the source: empty content and failed sniff return
failure with no decode attempt; otherwise try the TOON decode of the trimmed
content, then JSON.parse of the untrimmed content, then report total failure. -/
def postProcessResponse (E : Ext) (response : LLMResponse) : PostProcessResult :=
  if response.content = "" then ⟨none, false, RespFormat.none, none⟩
  else
    let trimmed := jsTrim response.content
    if isTOONFormat trimmed = false then ⟨none, false, RespFormat.none, none⟩
    else
      match E.decode trimmed with
      | some parsed => ⟨some parsed, true, RespFormat.toon, none⟩
      | none =>
        match E.jsonParse response.content with
        | some parsed =>
          ⟨some parsed, true, RespFormat.json, some "TOON decode failed, fell back to JSON"⟩
        | none => ⟨none, false, RespFormat.none, some "Both formats failed"⟩

/-- TOONProcessor from the source: a long-lived object holding a TOONConfig. -/
structure TOONProcessor where
  config : TOONConfig

/-- TOONProcessor.preProcess: the method body duplicates preProcessRequest
verbatim; in particular it never reads the config field of the processor. -/
def TOONProcessor.preProcess (_p : TOONProcessor) (E : Ext) (request : LLMRequest) :
    PreProcessResult :=
  match request.data with
  | none =>
    ⟨⟨request.systemPrompt, request.userMessage, none, false, none⟩,
     ⟨0, 0, 0, false, "no data"⟩⟩
  | some v =>
    if jsFalsyV v then
      ⟨⟨request.systemPrompt, request.userMessage, some (ProcData.val v), false, none⟩,
       ⟨0, 0, 0, false, "no data"⟩⟩
    else
      let eligibility := analyzeEligibility v
      if eligibility.shouldUseTOON = false then
        ⟨⟨request.systemPrompt, request.userMessage, some (ProcData.val v), false, none⟩,
         eligibility⟩
      else
        let metrics := calculateTokenSavings E v
        let toonData := E.encode v
        ⟨⟨request.systemPrompt, request.userMessage, some (ProcData.txt toonData), true,
          some metrics⟩, eligibility⟩

/-- TOONProcessor.postProcess: the method body duplicates postProcessResponse
verbatim. -/
def TOONProcessor.postProcess (_p : TOONProcessor) (E : Ext) (response : LLMResponse) :
    PostProcessResult :=
  if response.content = "" then ⟨none, false, RespFormat.none, none⟩
  else
    let trimmed := jsTrim response.content
    if isTOONFormat trimmed = false then ⟨none, false, RespFormat.none, none⟩
    else
      match E.decode trimmed with
      | some parsed => ⟨some parsed, true, RespFormat.toon, none⟩
      | none =>
        match E.jsonParse response.content with
        | some parsed =>
          ⟨some parsed, true, RespFormat.json, some "TOON decode failed, fell back to JSON"⟩
        | none => ⟨none, false, RespFormat.none, some "Both formats failed"⟩

mutual

/-- noArrays holds when no array occurs anywhere in the value tree. -/
def noArrays : Value → Bool
  | .varr _ => false
  | .vobj fs => noArraysFields fs
  | _ => true

def noArraysFields : Fields → Bool
  | .fnil => true
  | .fcons _ v fs => noArrays v && noArraysFields fs

end

/-- A trivial instantiation of the external functions, used in concrete
witnesses; decode and parse always fail, both serializers return the empty
string. -/
def extTrivial : Ext := ⟨fun _ => "", fun _ => Option.none, fun _ => "", fun _ => Option.none⟩

/-- A permissive configuration: zero threshold on tabularity and uniformity and
a generous depth bound, so every structure passes its three tests. -/
def cfgPermissive : TOONConfig := ⟨⟨0, 100, 0⟩⟩

/-- A small object with a single scalar field and no arrays. -/
def dataC2 : Value := .vobj (.fcons "a" (.vnum 1) .fnil)

/-- Claim C4: for every non-empty content string whose trimmed form fails the
two-pattern format sniff, postProcess returns success false and format none,
for every choice of the external decode and parse functions, so no tabular
decode and no JSON parse is attempted. -/
theorem C4_theorem (p : TOONProcessor) (E : Ext) (c : String)
    (hne : c ≠ "") (hsniff : isTOONFormat (jsTrim c) = false) :
    p.postProcess E ⟨c⟩ = ⟨Option.none, false, RespFormat.none, Option.none⟩ ∧
    postProcessResponse E ⟨c⟩ = ⟨Option.none, false, RespFormat.none, Option.none⟩ := by
  refine ⟨?_, ?_⟩ <;> simp [TOONProcessor.postProcess, postProcessResponse, hne, hsniff]

/-- Witness for C4 at the content of Scenario D, with external functions whose
decode and parse both succeed everywhere: the result is still failure with
format none, showing neither is consulted. -/
theorem C4_witness :
    (("plain prose, no markers" : String) ≠ "" ∧
     isTOONFormat (jsTrim "plain prose, no markers") = false) ∧
    TOONProcessor.postProcess ⟨DEFAULT_CONFIG⟩
        ⟨fun _ => "", fun _ => some Value.vnull, fun _ => "", fun _ => some Value.vnull⟩
        ⟨"plain prose, no markers"⟩ =
      ⟨Option.none, false, RespFormat.none, Option.none⟩ :=
  ⟨⟨by decide, by decide⟩,
   (C4_theorem ⟨DEFAULT_CONFIG⟩
     ⟨fun _ => "", fun _ => some Value.vnull, fun _ => "", fun _ => some Value.vnull⟩
     "plain prose, no markers" (by decide) (by decide)).1⟩

/-- Claim C5: when the sniff passes but the tabular decode of the trimmed
content fails, postProcess falls back to JSON.parse of the untrimmed original
content; parse success yields success true with format json and an
informational error string, parse failure yields the both-formats-failed
result; no exception is modelled because every outcome is a returned value. -/
theorem C5_theorem (p : TOONProcessor) (E : Ext) (c : String)
    (hne : c ≠ "") (hsniff : isTOONFormat (jsTrim c) = true)
    (hdec : E.decode (jsTrim c) = Option.none) :
    p.postProcess E ⟨c⟩ =
      (match E.jsonParse c with
       | some parsed =>
         ⟨some parsed, true, RespFormat.json, some "TOON decode failed, fell back to JSON"⟩
       | Option.none => ⟨Option.none, false, RespFormat.none, some "Both formats failed"⟩) ∧
    postProcessResponse E ⟨c⟩ =
      (match E.jsonParse c with
       | some parsed =>
         ⟨some parsed, true, RespFormat.json, some "TOON decode failed, fell back to JSON"⟩
       | Option.none => ⟨Option.none, false, RespFormat.none, some "Both formats failed"⟩) := by
  refine ⟨?_, ?_⟩ <;>
  · simp only [TOONProcessor.postProcess, postProcessResponse]
    rw [if_neg hne, if_neg (by simp [hsniff]), hdec]

/-- Witness for C5: content that sniffs positive, a decoder that always fails
and a parser that wraps the raw content in a string value; the result is the
JSON fallback success carrying the informational error. -/
theorem C5_witness :
    (("[1] {a}" : String) ≠ "" ∧ isTOONFormat (jsTrim "[1] {a}") = true) ∧
    TOONProcessor.postProcess ⟨DEFAULT_CONFIG⟩
        ⟨fun _ => "", fun _ => Option.none, fun _ => "", fun s => some (Value.vstr s)⟩
        ⟨"[1] {a}"⟩ =
      ⟨some (Value.vstr "[1] {a}"), true, RespFormat.json,
       some "TOON decode failed, fell back to JSON"⟩ :=
  ⟨⟨by decide, by decide⟩,
   (C5_theorem ⟨DEFAULT_CONFIG⟩
     ⟨fun _ => "", fun _ => Option.none, fun _ => "", fun s => some (Value.vstr s)⟩
     "[1] {a}" (by decide) (by decide) rfl).1⟩

/-- Claim C9: for fixed external functions and request, tightening the
thresholds (raising minTabularPercent or minUniformityScore, lowering
maxNestedDepth) never flips the eligibility decision of the processor from
false to true. The implementation ignores the per-processor configuration
entirely (see C2), so the decision is constant in it and in particular
monotone. -/
theorem C9_theorem (c c2 : TOONConfig) (E : Ext) (req : LLMRequest)
    (_h1 : c2.eligibility.minTabularPercent ≥ c.eligibility.minTabularPercent)
    (_h2 : c2.eligibility.maxNestedDepth ≤ c.eligibility.maxNestedDepth)
    (_h3 : c2.eligibility.minUniformityScore ≥ c.eligibility.minUniformityScore)
    (h : ((⟨c⟩ : TOONProcessor).preProcess E req).eligibility.shouldUseTOON = false) :
    ((⟨c2⟩ : TOONProcessor).preProcess E req).eligibility.shouldUseTOON = false := h

/-- Witness for C9: the default configuration tightened to 70 percent, depth 3
and uniformity 0.9, on a request whose data is a small scalar object; the
decision is false before and stays false after. -/
theorem C9_witness :
    ((⟨⟨70, 3, 0.9⟩⟩ : TOONConfig).eligibility.minTabularPercent ≥
        DEFAULT_CONFIG.eligibility.minTabularPercent ∧
     (⟨⟨70, 3, 0.9⟩⟩ : TOONConfig).eligibility.maxNestedDepth ≤
        DEFAULT_CONFIG.eligibility.maxNestedDepth ∧
     (⟨⟨70, 3, 0.9⟩⟩ : TOONConfig).eligibility.minUniformityScore ≥
        DEFAULT_CONFIG.eligibility.minUniformityScore ∧
     ((⟨DEFAULT_CONFIG⟩ : TOONProcessor).preProcess extTrivial
        ⟨"s", "u", some dataC2⟩).eligibility.shouldUseTOON = false) ∧
    ((⟨⟨⟨70, 3, 0.9⟩⟩⟩ : TOONProcessor).preProcess extTrivial
        ⟨"s", "u", some dataC2⟩).eligibility.shouldUseTOON = false :=
  ⟨⟨by decide, by decide, by norm_num [DEFAULT_CONFIG], by decide⟩,
   C9_theorem DEFAULT_CONFIG ⟨⟨70, 3, 0.9⟩⟩ extTrivial ⟨"s", "u", some dataC2⟩
     (by decide) (by decide) (by norm_num [DEFAULT_CONFIG]) (by decide)⟩

/-- Claim C2 (code bug): a processor built with the permissive configuration,
whose own three threshold tests all pass on the data, still reports
shouldUseTOON false, because preProcess decides with DEFAULT_CONFIG and never
reads the processor configuration. -/
theorem C2_code_divergence :
    ((⟨cfgPermissive⟩ : TOONProcessor).preProcess extTrivial
        ⟨"s", "u", some dataC2⟩).eligibility.shouldUseTOON = false ∧
    ((analyzeDataStructure dataC2).percentTabular ≥
        cfgPermissive.eligibility.minTabularPercent ∧
     (analyzeDataStructure dataC2).nestedDepth ≤ cfgPermissive.eligibility.maxNestedDepth ∧
     (analyzeDataStructure dataC2).uniformityScore ≥
        cfgPermissive.eligibility.minUniformityScore) := by
  refine ⟨by decide, by decide, by decide, by decide⟩

/-- Claim C10: preProcess short-circuits on every falsy data slot, absent,
null, NaN, false, zero or the empty string: the request comes back unchanged
with toonProcessed false and the degenerate no-data report, independently of
the external functions, so neither the analyzer nor the estimator nor the
codec can influence the result. -/
theorem C10_theorem (p : TOONProcessor) (E : Ext) (sp um : String) (dOpt : Option Value)
    (h : dOpt = Option.none ∨ dOpt = some Value.vnull ∨ dOpt = some (Value.vnum 0) ∨
         dOpt = some (Value.vbool false) ∨ dOpt = some Value.vnan ∨
         dOpt = some (Value.vstr "")) :
    p.preProcess E ⟨sp, um, dOpt⟩ =
      ⟨⟨sp, um, dOpt.map ProcData.val, false, Option.none⟩, ⟨0, 0, 0, false, "no data"⟩⟩ ∧
    preProcessRequest E ⟨sp, um, dOpt⟩ =
      ⟨⟨sp, um, dOpt.map ProcData.val, false, Option.none⟩, ⟨0, 0, 0, false, "no data"⟩⟩ := by
  rcases h with rfl | rfl | rfl | rfl | rfl | rfl <;> exact ⟨rfl, rfl⟩

/-- Witness for C10 at data zero, a falsy but non-null value: the short-circuit
result is returned with the data slot untouched. -/
theorem C10_witness :
    (some (Value.vnum 0) = Option.none ∨ some (Value.vnum 0) = some Value.vnull ∨
     some (Value.vnum 0) = some (Value.vnum 0) ∨
     some (Value.vnum 0) = some (Value.vbool false) ∨
     some (Value.vnum 0) = some Value.vnan ∨ some (Value.vnum 0) = some (Value.vstr "")) ∧
    (⟨DEFAULT_CONFIG⟩ : TOONProcessor).preProcess extTrivial ⟨"s", "u", some (Value.vnum 0)⟩ =
      ⟨⟨"s", "u", some (ProcData.val (Value.vnum 0)), false, Option.none⟩,
       ⟨0, 0, 0, false, "no data"⟩⟩ :=
  ⟨Or.inr (Or.inr (Or.inl rfl)),
   (C10_theorem ⟨DEFAULT_CONFIG⟩ extTrivial "s" "u" (some (Value.vnum 0))
     (Or.inr (Or.inr (Or.inl rfl)))).1⟩

/-- The five-level nesting scenario input of the specification. -/
def deepDataC3 : Value :=
  .vobj (.fcons "level1" (.vobj (.fcons "level2" (.vobj (.fcons "level3"
    (.vobj (.fcons "level4" (.vobj (.fcons "deep" (.vstr "value") .fnil)) .fnil))
    .fnil)) .fnil)) .fnil)

/-- Counterexample for C3: on the deeply nested scenario input the computed
nestedDepth is not 4; the scalar leaf is visited at depth 5 and the maximum is
taken over scalars as well. -/
theorem C3_counterexample : (analyzeDataStructure deepDataC3).nestedDepth ≠ 4 := by decide

/-- Claim C3 (amended): on the deeply nested scenario input the analyzer
returns percentTabular 0 and nestedDepth 5 (root at depth 0, scalars
contributing to depth), and the decision under the default thresholds is
false. -/
theorem C3_amended :
    (analyzeDataStructure deepDataC3).percentTabular = 0 ∧
    (analyzeDataStructure deepDataC3).nestedDepth = 5 ∧
    (analyzeEligibility deepDataC3).shouldUseTOON = false := by
  refine ⟨by decide, by decide, by decide⟩

/-- A value with exactly two arrays, one tabular and one not: fifty percent
tabular, depth 3, uniformity 1. -/
def dataC6 : Value :=
  .vobj (.fcons "x" (.varr (.cons (.vobj (.fcons "a" (.vnum 1) .fnil)) .nil))
    (.fcons "y" (.varr (.cons (.vstr "s") .nil)) .fnil))

/-- Evaluation of the analyzer on dataC6. -/
theorem analyzeDataStructure_dataC6 : analyzeDataStructure dataC6 = ⟨50, 3, 1⟩ := by
  have hx : isUniformObjectArray
      (ValueList.cons (.vobj (.fcons "a" (.vnum 1) .fnil)) .nil) = true := by decide
  have hy : isUniformObjectArray (ValueList.cons (.vstr "s") .nil) = false := by decide
  norm_num [analyzeDataStructure, dataC6, traverse, traverseList, traverseFields, arrayUpdate,
    visit, calculateUniformity, presentCount, objectKeys, fieldKeys, ValueList.length, hx, hy]

/-- Counterexample for C6: a processor whose own permissive configuration
accepts the statistics of dataC6 on all three tests, while the computed
decision is false, so the decision is not the conjunction of the three tests
with respect to an arbitrary supplied configuration. -/
theorem C6_counterexample :
    ((⟨cfgPermissive⟩ : TOONProcessor).preProcess extTrivial
        ⟨"s", "u", some dataC6⟩).eligibility.shouldUseTOON = false ∧
    ((analyzeDataStructure dataC6).percentTabular ≥
        cfgPermissive.eligibility.minTabularPercent ∧
     (analyzeDataStructure dataC6).nestedDepth ≤ cfgPermissive.eligibility.maxNestedDepth ∧
     (analyzeDataStructure dataC6).uniformityScore ≥
        cfgPermissive.eligibility.minUniformityScore) := by
  have hElig : (analyzeEligibility dataC6).shouldUseTOON = false := by
    simp only [analyzeEligibility, analyzeDataStructure_dataC6]
    norm_num [DEFAULT_CONFIG]
  constructor
  · have hfalsy : jsFalsyV dataC6 = false := by decide
    simp [TOONProcessor.preProcess, hfalsy, hElig]
  · rw [analyzeDataStructure_dataC6]
    norm_num [cfgPermissive]

/-- Claim C6 (amended): for every input value, the eligibility decision is true
exactly when the three threshold tests pass with respect to the process-wide
default configuration; any configuration supplied to a processor is ignored
(see C2). -/
theorem C6_amended (data : Value) :
    (analyzeEligibility data).shouldUseTOON = true ↔
      ((analyzeDataStructure data).percentTabular ≥
          DEFAULT_CONFIG.eligibility.minTabularPercent ∧
       (analyzeDataStructure data).nestedDepth ≤ DEFAULT_CONFIG.eligibility.maxNestedDepth ∧
       (analyzeDataStructure data).uniformityScore ≥
          DEFAULT_CONFIG.eligibility.minUniformityScore) := by
  simp [analyzeEligibility, Bool.and_eq_true, decide_eq_true_eq, and_assoc]

mutual

/-- On an array-free value the traversal leaves the array counter and the
uniformity counter unchanged. -/
theorem trav_noArrays : ∀ (v : Value) (acc : TravAcc) (d : ℕ), noArrays v = true →
    (traverse acc v d).totalArrays = acc.totalArrays ∧
    (traverse acc v d).uniformityCount = acc.uniformityCount
  | .vnull, _, _, _ => ⟨rfl, rfl⟩
  | .vbool _, _, _, _ => ⟨rfl, rfl⟩
  | .vnum _, _, _, _ => ⟨rfl, rfl⟩
  | .vnan, _, _, _ => ⟨rfl, rfl⟩
  | .vstr _, _, _, _ => ⟨rfl, rfl⟩
  | .varr _, _, _, h => by simp [noArrays] at h
  | .vobj fs, acc, d, h => by
    have hf := travFields_noArrays fs (visit acc d) (d + 1) (by simpa [noArrays] using h)
    simpa [traverse, visit] using hf

/-- Field-list version of trav_noArrays. -/
theorem travFields_noArrays : ∀ (fs : Fields) (acc : TravAcc) (d : ℕ),
    noArraysFields fs = true →
    (traverseFields acc fs d).totalArrays = acc.totalArrays ∧
    (traverseFields acc fs d).uniformityCount = acc.uniformityCount
  | .fnil, _, _, _ => ⟨rfl, rfl⟩
  | .fcons _ v fs, acc, d, h => by
    obtain ⟨h1, h2⟩ :=
      (by simpa [noArraysFields] using h : noArrays v = true ∧ noArraysFields fs = true)
    obtain ⟨ha1, ha2⟩ := trav_noArrays v acc d h1
    obtain ⟨hb1, hb2⟩ := travFields_noArrays fs (traverse acc v d) d h2
    exact ⟨hb1.trans ha1, hb2.trans ha2⟩

end

/-- Claim C7: every value containing no array anywhere in its tree has
percentTabular 0 and uniformityScore 1 (the no-candidates default). -/
theorem C7_theorem (v : Value) (h : noArrays v = true) :
    (analyzeDataStructure v).percentTabular = 0 ∧
    (analyzeDataStructure v).uniformityScore = 1 := by
  obtain ⟨h1, h2⟩ := trav_noArrays v ⟨0, 0, 0, 0, 0⟩ 0 h
  simp [analyzeDataStructure, h1, h2]

/-- Witness for C7 at a one-field scalar object. -/
theorem C7_witness :
    noArrays dataC2 = true ∧
    (analyzeDataStructure dataC2).percentTabular = 0 ∧
    (analyzeDataStructure dataC2).uniformityScore = 1 :=
  ⟨by decide, C7_theorem dataC2 (by decide)⟩

/-- Claim C8: the token proxy is the ceiling of a quarter of the text length,
and the metrics of every input satisfy savings = original - toon and
percentSaved = 100 * savings / original, with percentSaved 0 when original is
0, for every choice of the external serializers. -/
theorem C8_theorem :
    (∀ s : String, countTokens s = ⌈(s.length : ℚ) / 4⌉₊) ∧
    (∀ (E : Ext) (data : Value),
      (calculateTokenSavings E data).savings =
        ((calculateTokenSavings E data).original : ℤ) -
          ((calculateTokenSavings E data).toon : ℤ) ∧
      (calculateTokenSavings E data).percentSaved =
        (if (calculateTokenSavings E data).original = 0 then 0
         else 100 * ((calculateTokenSavings E data).savings : ℚ) /
           ((calculateTokenSavings E data).original : ℚ))) := by
  refine ⟨fun s => rfl, fun E data => ⟨rfl, ?_⟩⟩
  simp only [calculateTokenSavings]
  by_cases h : countTokens (E.stringify data) = 0
  · simp [h]
  · rw [if_pos (Nat.pos_of_ne_zero h), if_neg h]
    push_cast
    ring

/-- An array of two non-null, non-array mappings with mismatched key sets: the
first element has keys a and b, the second only a. -/
def mismatchArrC1 : ValueList :=
  .cons (.vobj (.fcons "a" (.vnum 1) (.fcons "b" (.vnum 2) .fnil)))
    (.cons (.vobj (.fcons "a" (.vnum 3) .fnil)) .nil)

/-- Counterexample for C1: every element of mismatchArrC1 is a non-null,
non-array mapping, yet the array is not uniform, is not counted as tabular
(percentTabular is 0 although it is the only array), and contributes no
fractional uniformity (the score stays at the no-candidates default 1, not at
the 3/4 the claim predicts). -/
theorem C1_counterexample :
    ValueList.all isPlainObject mismatchArrC1 = true ∧
    isUniformObjectArray mismatchArrC1 = false ∧
    (analyzeDataStructure (Value.varr mismatchArrC1)).percentTabular = 0 ∧
    (analyzeDataStructure (Value.varr mismatchArrC1)).uniformityScore = 1 := by
  have h1 : isUniformObjectArray mismatchArrC1 = false := by decide
  refine ⟨by decide, h1, ?_⟩
  simp only [mismatchArrC1] at h1
  norm_num [analyzeDataStructure, traverse, traverseList, traverseFields, arrayUpdate, visit,
    isPlainObject, objectKeys, fieldKeys, ValueList.length, mismatchArrC1, h1]

/-- ValueList.all is the bounded universal over the underlying list. -/
theorem ValueList.all_iff (p : Value → Bool) : ∀ (vs : ValueList),
    ValueList.all p vs = true ↔ ∀ w ∈ vs.toList, p w = true
  | .nil => by simp [ValueList.all, ValueList.toList]
  | .cons v vs => by
    simp [ValueList.all, ValueList.toList, ValueList.all_iff p vs]

/-- When every reference key is present in every element, the nested counting
loops reach the full product of the two lengths. -/
theorem presentCount_eq_of_all_mem (ref : List String) : ∀ (vs : ValueList),
    (∀ w ∈ vs.toList, ∀ k ∈ ref, k ∈ objectKeys w) →
    presentCount vs ref = vs.length * ref.length
  | .nil, _ => by simp [presentCount, ValueList.length]
  | .cons v vs, h => by
    have hv : ∀ k ∈ ref, k ∈ objectKeys v :=
      fun k hk => h v (by simp [ValueList.toList]) k hk
    have hcount : ref.countP (fun k => decide (k ∈ objectKeys v)) = ref.length :=
      List.countP_eq_length.mpr (fun k hk => by simpa using hv k hk)
    have ih := presentCount_eq_of_all_mem ref vs
      (fun w hw => h w (by simp [ValueList.toList, hw]))
    simp only [presentCount, hcount, ih, ValueList.length]
    ring

/-- Claim C1 (amended): an array of non-null, non-array mappings is counted as
uniform only when every element has exactly the key set of the first element
(same key count and every key contained in it); in that case, for elements
with duplicate-free keys as JavaScript objects always have, every element key
set equals the first key set, and the uniformity actually accumulated is
exactly 1 whenever the first element has at least one key — never a proper
fraction. -/
theorem C1_amended (v : Value) (rest : ValueList)
    (h : isUniformObjectArray (ValueList.cons v rest) = true)
    (hnd : ∀ w ∈ (ValueList.cons v rest).toList, (objectKeys w).Nodup) :
    (∀ w ∈ (ValueList.cons v rest).toList,
        isPlainObject w = true ∧ (objectKeys w).length = (objectKeys v).length ∧
        ∀ k, k ∈ objectKeys w ↔ k ∈ objectKeys v) ∧
    (objectKeys v ≠ [] → calculateUniformity (ValueList.cons v rest) = 1) := by
  have hvnd : (objectKeys v).Nodup := hnd v (by simp [ValueList.toList])
  have hd : (objectKeys v).dedup = objectKeys v := List.dedup_eq_self.mpr hvnd
  rw [isUniformObjectArray] at h
  obtain ⟨hplain, hkeys⟩ :=
    (by simpa using h :
      ValueList.all isPlainObject (ValueList.cons v rest) = true ∧
      ValueList.all (fun item =>
        (objectKeys item).length == ((objectKeys v).dedup).length &&
        (objectKeys item).all (fun k => decide (k ∈ (objectKeys v).dedup)))
        (ValueList.cons v rest) = true)
  rw [ValueList.all_iff] at hplain hkeys
  have hmain : ∀ w ∈ (ValueList.cons v rest).toList,
      isPlainObject w = true ∧ (objectKeys w).length = (objectKeys v).length ∧
      ∀ k, k ∈ objectKeys w ↔ k ∈ objectKeys v := by
    intro w hw
    have hp := hplain w hw
    have hk := hkeys w hw
    obtain ⟨hlenb, hsubb⟩ :=
      (by simpa using hk :
        ((objectKeys w).length == ((objectKeys v).dedup).length) = true ∧
        (objectKeys w).all (fun k => decide (k ∈ (objectKeys v).dedup)) = true)
    have hlen : (objectKeys w).length = (objectKeys v).length := by
      have := (beq_iff_eq).mp hlenb
      simpa [hd] using this
    have hsub : ∀ k ∈ objectKeys w, k ∈ objectKeys v := by
      intro k hk2
      have := List.all_eq_true.mp hsubb k hk2
      simpa [hd] using this
    have hwnd := hnd w hw
    have hfeq : (objectKeys w).toFinset = (objectKeys v).toFinset := by
      apply Finset.eq_of_subset_of_card_le
      · intro x hx
        rw [List.mem_toFinset] at hx ⊢
        exact hsub x hx
      · rw [List.toFinset_card_of_nodup hwnd, List.toFinset_card_of_nodup hvnd, hlen]
    refine ⟨hp, hlen, fun k => ⟨fun hk2 => hsub k hk2, fun hk2 => ?_⟩⟩
    have hkfin : k ∈ (objectKeys w).toFinset := by
      rw [hfeq]
      exact List.mem_toFinset.mpr hk2
    exact List.mem_toFinset.mp hkfin
  refine ⟨hmain, fun hne => ?_⟩
  have hall : ∀ w ∈ (ValueList.cons v rest).toList, ∀ k ∈ objectKeys v, k ∈ objectKeys w :=
    fun w hw k hk => ((hmain w hw).2.2 k).mpr hk
  have hpc := presentCount_eq_of_all_mem (objectKeys v) (ValueList.cons v rest) hall
  rw [calculateUniformity]
  rw [hpc]
  have h1 : ((objectKeys v).length : ℚ) ≠ 0 := by
    simpa using fun hh => hne (List.length_eq_zero.mp hh)
  have h2 : ((ValueList.cons v rest).length : ℚ) ≠ 0 := by
    simp [ValueList.length]
    positivity
  push_cast
  rw [mul_comm ((objectKeys v).length : ℚ)]
  exact div_self (mul_ne_zero h2 h1)

/-- Witness for C1 at a concrete uniform array of two one-key objects with the
same key: the hypotheses hold and the accumulated uniformity is exactly 1. -/
theorem C1_witness :
    isUniformObjectArray (ValueList.cons (Value.vobj (.fcons "a" (.vnum 1) .fnil))
      (.cons (Value.vobj (.fcons "a" (.vnum 2) .fnil)) .nil)) = true ∧
    calculateUniformity (ValueList.cons (Value.vobj (.fcons "a" (.vnum 1) .fnil))
      (.cons (Value.vobj (.fcons "a" (.vnum 2) .fnil)) .nil)) = 1 :=
  ⟨by decide,
   (C1_amended (Value.vobj (.fcons "a" (.vnum 1) .fnil))
     (.cons (Value.vobj (.fcons "a" (.vnum 2) .fnil)) .nil)
     (by decide) (by decide)).2 (by decide)⟩

end ToonFormatSkill
